import Mathlib

/-!
Shallow embedding of the ewm 6502 CPU core (src/cpu.c) and proofs about it.

Machine integers are modelled as Nat with explicit reductions modulo 256
(bytes) and 65536 (words) where the C code relies on unsigned wraparound.
The state struct cpu_t and its flag fields, the error codes, the vector
addresses, the opcode-descriptor struct and the byte-level memory-bus
accessors live in headers and in mem.c, which are not part of src/; those
are modelled from the spec and marked as such.  Everything else is a direct
translation of src/cpu.c.
-/

namespace Ewm

/-- Modelled from the spec: error kind from cpu.h (not in src/); the spec
only requires the three codes to be nonzero and distinct. -/
def EWM_CPU_ERR_UNIMPLEMENTED_INSTRUCTION : Int := 1

/-- Modelled from the spec: error kind from cpu.h (not in src/). -/
def EWM_CPU_ERR_STACK_OVERFLOW : Int := 2

/-- Modelled from the spec: error kind from cpu.h (not in src/). -/
def EWM_CPU_ERR_STACK_UNDERFLOW : Int := 3

/-- Modelled from the spec: reset vector address (conventionally 0xFFFC). -/
def EWM_VECTOR_RES : Nat := 0xFFFC

/-- Modelled from the spec: IRQ vector address (conventionally 0xFFFE). -/
def EWM_VECTOR_IRQ : Nat := 0xFFFE

/-- Modelled from the spec: NMI vector address (conventionally 0xFFFA). -/
def EWM_VECTOR_NMI : Nat := 0xFFFA

/-- Modelled from the spec: the register file of struct cpu_state_t
(cpu.h is not in src/).  Registers a, x, y and sp are 8-bit, pc is
16-bit; the seven flags are booleans. -/
structure cpu_state_t where
  a : Nat
  x : Nat
  y : Nat
  sp : Nat
  pc : Nat
  n : Bool
  v : Bool
  b : Bool
  d : Bool
  i : Bool
  z : Bool
  c : Bool

/-- Modelled from the spec: struct cpu_t (cpu.h is not in src/).  The
memory bus is abstracted as a byte function over the 16-bit address
space; the instruction table is passed as an explicit argument to the
functions that consult it, since in C it is an external global. -/
structure cpu_t where
  state : cpu_state_t
  mem : Nat → Nat
  strict : Bool
  trace : Bool

/-- Modelled from the spec: mem_get_byte from mem.c (not in src/) reads
one byte through the bus; the direct fast path is required by the spec to
be equivalent to this general path, so both are the same function here. -/
def mem_get_byte (cpu : cpu_t) (addr : Nat) : Nat :=
  cpu.mem (addr % 65536) % 256

/-- Modelled from the spec: mem_set_byte from mem.c (not in src/) writes
one byte through the bus. -/
def mem_set_byte (cpu : cpu_t) (addr v : Nat) : cpu_t :=
  { cpu with mem := fun a => if a = addr % 65536 then v % 256 else cpu.mem a }

/-- Modelled from the spec: the zero-page/stack fast path, equivalent to
the general path (spec section 4.1). -/
def _mem_get_byte_direct (cpu : cpu_t) (addr : Nat) : Nat :=
  mem_get_byte cpu addr

/-- Modelled from the spec: the zero-page/stack fast path, equivalent to
the general path (spec section 4.1). -/
def _mem_set_byte_direct (cpu : cpu_t) (addr v : Nat) : cpu_t :=
  mem_set_byte cpu addr v

/-- Modelled from the spec: mem_get_word from mem.c (not in src/) reads a
two-byte little-endian word: low byte at addr, high byte at addr+1. -/
def mem_get_word (cpu : cpu_t) (addr : Nat) : Nat :=
  mem_get_byte cpu addr + 256 * mem_get_byte cpu (addr + 1)

/-- From src/cpu.c, _cpu_push_byte: write b at 0x0100 + sp, then
decrement sp with 8-bit wraparound. -/
def _cpu_push_byte (cpu : cpu_t) (b : Nat) : cpu_t :=
  let cpu := _mem_set_byte_direct cpu (0x0100 + cpu.state.sp) b
  { cpu with state := { cpu.state with sp := (cpu.state.sp + 255) % 256 } }

/-- From src/cpu.c, _cpu_push_word: push the high byte first, then the
low byte. -/
def _cpu_push_word (cpu : cpu_t) (w : Nat) : cpu_t :=
  _cpu_push_byte (_cpu_push_byte cpu (w / 256 % 256)) (w % 256)

/-- From src/cpu.c, _cpu_pull_byte: increment sp with 8-bit wraparound
first, then read at 0x0100 + sp.  Returns the byte and the new state. -/
def _cpu_pull_byte (cpu : cpu_t) : Nat × cpu_t :=
  let sp := (cpu.state.sp + 1) % 256
  let cpu := { cpu with state := { cpu.state with sp := sp } }
  (_mem_get_byte_direct cpu (0x0100 + sp), cpu)

/-- From src/cpu.c, _cpu_pull_word: pull the low byte, then the high
byte (spec section 4.2 fixes this evaluation order). -/
def _cpu_pull_word (cpu : cpu_t) : Nat × cpu_t :=
  let r1 := _cpu_pull_byte cpu
  let r2 := _cpu_pull_byte r1.2
  (r1.1 + 256 * r2.1, r2.2)

/-- From src/cpu.c, _cpu_stack_free: the free stack space is the sp
value itself. -/
def _cpu_stack_free (cpu : cpu_t) : Nat :=
  cpu.state.sp

/-- From src/cpu.c, _cpu_stack_used: the used stack space is 0xff - sp. -/
def _cpu_stack_used (cpu : cpu_t) : Nat :=
  0xff - cpu.state.sp

/-- From src/cpu.c, _cpu_get_status: pack the flags into one byte.  The
constant 0x30 sets bits 5 and 4; the b flag is then ORed into bit 4. -/
def _cpu_get_status (cpu : cpu_t) : Nat :=
  0x30
    ||| ((if cpu.state.n then 1 else 0) <<< 7)
    ||| ((if cpu.state.v then 1 else 0) <<< 6)
    ||| ((if cpu.state.b then 1 else 0) <<< 4)
    ||| ((if cpu.state.d then 1 else 0) <<< 3)
    ||| ((if cpu.state.i then 1 else 0) <<< 2)
    ||| ((if cpu.state.z then 1 else 0) <<< 1)
    ||| ((if cpu.state.c then 1 else 0) <<< 0)

/-- From src/cpu.c, _cpu_set_status: each flag is set from the
corresponding bit of the status byte (C truthiness of status AND mask). -/
def _cpu_set_status (cpu : cpu_t) (status : Nat) : cpu_t :=
  { cpu with state := { cpu.state with
      n := status &&& (1 <<< 7) != 0
      v := status &&& (1 <<< 6) != 0
      b := status &&& (1 <<< 4) != 0
      d := status &&& (1 <<< 3) != 0
      i := status &&& (1 <<< 2) != 0
      z := status &&& (1 <<< 1) != 0
      c := status &&& (1 <<< 0) != 0 } }

/-- Modelled from the spec: the three C handler calling conventions
(no operand, 8-bit operand, 16-bit operand), selected by the instruction
length.  The C code stores a void pointer and casts it according to the
length; the spec (section 9) describes this as a tagged variant over the
three handler kinds, which is how it is modelled here. -/
inductive cpu_instruction_handler_t where
  | handler0 (f : cpu_t → cpu_t)
  | handler_byte (f : cpu_t → Nat → cpu_t)
  | handler_word (f : cpu_t → Nat → cpu_t)

/-- Modelled from the spec: cpu_instruction_t from ins.h (not in src/):
mnemonic name, total length in bytes, signed required stack headroom, and
an optional handler. -/
structure cpu_instruction_t where
  name : String
  bytes : Nat
  stack : Int
  handler : Option cpu_instruction_handler_t

/-- From src/cpu.c, cpu_execute_instruction lines 236 to 246: the
strict-mode stack guard, extracted as a function returning the error it
would produce (0 when execution may proceed).  Quantities are compared as
C ints. -/
def _cpu_stack_check (i : cpu_instruction_t) (cpu : cpu_t) : Int :=
  if cpu.strict = true ∧ i.stack ≠ 0 then
    if 0 < i.stack then
      if (_cpu_stack_free cpu : Int) < i.stack then EWM_CPU_ERR_STACK_OVERFLOW else 0
    else
      if (_cpu_stack_used cpu : Int) < -i.stack then EWM_CPU_ERR_STACK_UNDERFLOW else 0
  else 0

/-- From src/cpu.c, cpu_execute_instruction lines 248 to 267: remember
pc, advance pc by the instruction length (the C guard pc == state.pc is
vacuously true there), then call the handler, passing no operand, the
byte at the remembered pc + 1, or the little-endian word at the
remembered pc + 1, according to the instruction length.  A length
outside 1..3 falls through the C switch without calling the handler; a
length/handler-kind mismatch is undefined in C (an ill-typed call
through a cast pointer) and is likewise modelled as not calling. -/
def _cpu_dispatch (i : cpu_instruction_t) (h : cpu_instruction_handler_t) (cpu : cpu_t) : Int × cpu_t :=
  let pc := cpu.state.pc
  let cpu1 : cpu_t := { cpu with state := { cpu.state with pc := (pc + i.bytes) % 65536 } }
  match i.bytes, h with
  | 1, .handler0 f => (0, f cpu1)
  | 2, .handler_byte f => (0, f cpu1 (mem_get_byte cpu1 (pc + 1)))
  | 3, .handler_word f => (0, f cpu1 (mem_get_word cpu1 (pc + 1)))
  | _, _ => (0, cpu1)

/-- From src/cpu.c, cpu_execute_instruction: fetch the opcode at pc, look
up its descriptor, fail with EWM_CPU_ERR_UNIMPLEMENTED_INSTRUCTION if the
handler is absent, apply the strict-mode stack guard, then advance pc and
dispatch.  Trace formatting writes only to local buffers and stderr and
is semantically inert, so it is omitted.  The error paths return the
state unchanged. -/
def cpu_execute_instruction (tbl : Nat → cpu_instruction_t) (cpu : cpu_t) : Int × cpu_t :=
  match (tbl (mem_get_byte cpu cpu.state.pc)).handler with
  | none => (EWM_CPU_ERR_UNIMPLEMENTED_INSTRUCTION, cpu)
  | some h =>
    if _cpu_stack_check (tbl (mem_get_byte cpu cpu.state.pc)) cpu ≠ 0 then
      (_cpu_stack_check (tbl (mem_get_byte cpu cpu.state.pc)) cpu, cpu)
    else
      _cpu_dispatch (tbl (mem_get_byte cpu cpu.state.pc)) h cpu

/-- From src/cpu.c, cpu_init: zero the whole structure. -/
def cpu_init : cpu_t :=
  { state := { a := 0, x := 0, y := 0, sp := 0, pc := 0,
               n := false, v := false, b := false, d := false,
               i := false, z := false, c := false }
    mem := fun _ => 0
    strict := false
    trace := false }

/-- From src/cpu.c, cpu_strict: sets the strict field to true,
ignoring the boolean argument (the argument does not appear on the
right-hand side in the C source either). -/
def cpu_strict (cpu : cpu_t) (_strict : Bool) : cpu_t :=
  { cpu with strict := true }

/-- From src/cpu.c, cpu_trace. -/
def cpu_trace (cpu : cpu_t) (t : Bool) : cpu_t :=
  { cpu with trace := t }

/-- From src/cpu.c, cpu_reset: load pc from the reset vector, zero the
registers and all flags except interrupt-disable which is set, and set
sp to 0xff. -/
def cpu_reset (cpu : cpu_t) : cpu_t :=
  { cpu with state := {
      pc := mem_get_word cpu EWM_VECTOR_RES
      a := 0
      x := 0
      y := 0
      n := false
      v := false
      b := false
      d := false
      i := true
      z := false
      c := false
      sp := 0xff } }

/-- From src/cpu.c, cpu_irq: in strict mode with fewer than 3 bytes of
free stack, fail with EWM_CPU_ERR_STACK_OVERFLOW and change nothing;
otherwise push pc as a word, push the packed status byte, set the
interrupt-disable flag and load pc from the IRQ vector. -/
def cpu_irq (cpu : cpu_t) : Int × cpu_t :=
  if cpu.strict = true ∧ _cpu_stack_free cpu < 3 then
    (EWM_CPU_ERR_STACK_OVERFLOW, cpu)
  else
    let cpu := _cpu_push_word cpu cpu.state.pc
    let cpu := _cpu_push_byte cpu (_cpu_get_status cpu)
    let cpu : cpu_t :=
      { cpu with state := { cpu.state with
          i := true
          pc := mem_get_word cpu EWM_VECTOR_IRQ } }
    (0, cpu)

/-- From src/cpu.c, cpu_nmi: identical to cpu_irq except that pc is
loaded from the NMI vector. -/
def cpu_nmi (cpu : cpu_t) : Int × cpu_t :=
  if cpu.strict = true ∧ _cpu_stack_free cpu < 3 then
    (EWM_CPU_ERR_STACK_OVERFLOW, cpu)
  else
    let cpu := _cpu_push_word cpu cpu.state.pc
    let cpu := _cpu_push_byte cpu (_cpu_get_status cpu)
    let cpu : cpu_t :=
      { cpu with state := { cpu.state with
          i := true
          pc := mem_get_word cpu EWM_VECTOR_NMI } }
    (0, cpu)

/-- From src/cpu.c, cpu_run: the loop body.  Executes instructions while
the result is 0, incrementing the local instruction counter; on a
nonzero error it stops and yields the error, the counter value and the
final state.  The C loop need not terminate, so a fuel argument bounds
the number of iterations; none means the fuel ran out. -/
def cpu_run_loop (tbl : Nat → cpu_instruction_t) : Nat → Nat → cpu_t → Option (Int × Nat × cpu_t)
  | 0, _, _ => none
  | fuel + 1, count, cpu =>
    let r := cpu_execute_instruction tbl cpu
    if r.1 = 0 then cpu_run_loop tbl fuel (count + 1) r.2
    else some (r.1, count, r.2)

/-- From src/cpu.c, cpu_run: runs the loop and returns what the C
function returns to its caller, namely the error int alone (the
instruction counter is only printed to stderr), together with the
in-place mutated state. -/
def cpu_run (tbl : Nat → cpu_instruction_t) (fuel : Nat) (cpu : cpu_t) : Option (Int × cpu_t) :=
  (cpu_run_loop tbl fuel 0 cpu).map fun r => (r.1, r.2.2)

/-- From src/cpu.c, cpu_boot: reset then run. -/
def cpu_boot (tbl : Nat → cpu_instruction_t) (fuel : Nat) (cpu : cpu_t) : Option (Int × cpu_t) :=
  cpu_run tbl fuel (cpu_reset cpu)

/-- From src/cpu.c, cpu_step: execute exactly one instruction. -/
def cpu_step (tbl : Nat → cpu_instruction_t) (cpu : cpu_t) : Int × cpu_t :=
  cpu_execute_instruction tbl cpu

/-- Iterate the state component of cpu_step; used to state which
instruction the run loop stops at. -/
def iter_cpu_step (tbl : Nat → cpu_instruction_t) : Nat → cpu_t → cpu_t
  | 0, cpu => cpu
  | k + 1, cpu => iter_cpu_step tbl k (cpu_step tbl cpu).2

/-! Concrete fixtures used to evaluate the theorems on explicit inputs. -/

/-- A small concrete opcode table: opcode 0 is a one-byte no-operation,
opcode 2 a two-byte load into a, opcode 3 a three-byte jump, opcode 4 a
one-byte instruction declaring 3 bytes of push headroom, opcode 5 a
one-byte instruction declaring 2 bytes of pop headroom; every other
opcode has no handler. -/
def tblW : Nat → cpu_instruction_t := fun op =>
  if op = 0 then
    { name := "NOP", bytes := 1, stack := 0, handler := some (.handler0 fun cpu => cpu) }
  else if op = 2 then
    { name := "LDA", bytes := 2, stack := 0,
      handler := some (.handler_byte fun cpu oper =>
        { cpu with state := { cpu.state with a := oper } }) }
  else if op = 3 then
    { name := "JMP", bytes := 3, stack := 0,
      handler := some (.handler_word fun cpu oper =>
        { cpu with state := { cpu.state with pc := oper } }) }
  else if op = 4 then
    { name := "JSR3", bytes := 1, stack := 3, handler := some (.handler0 fun cpu => cpu) }
  else if op = 5 then
    { name := "RTS2", bytes := 1, stack := -2, handler := some (.handler0 fun cpu => cpu) }
  else
    { name := "???", bytes := 1, stack := 0, handler := none }

/-- A zeroed CPU whose memory reads 1 everywhere: under tblW the first
fetched opcode has no handler. -/
def cpuA : cpu_t :=
  { cpu_init with mem := fun _ => 1 }

/-- A zeroed CPU whose memory holds two NOP opcodes followed by an
unhandled opcode: under tblW the run executes 2 instructions and stops. -/
def cpuB : cpu_t :=
  { cpu_init with mem := fun a => if a < 2 then 0 else 1 }

/-- A CPU poised for the C6 IRQ scenario: pc = 0x0400, carry set, zero
clear, sp = 0xff, non-strict; the IRQ vector at 0xFFFE holds 0x1234. -/
def cpuW6 : cpu_t :=
  { cpu_init with
    state := { cpu_init.state with pc := 0x0400, sp := 0xff, c := true }
    mem := fun a => if a = 0xFFFE then 0x34 else if a = 0xFFFF then 0x12 else 0 }

/-- A strict-mode CPU with sp = 0x02, pc = 0x0300, the instruction at pc
being tblW opcode 4 (3 bytes of push headroom) and the instruction at
0x0301 being tblW opcode 5 (2 bytes of pop headroom). -/
def cpuW5 : cpu_t :=
  { cpu_init with
    state := { cpu_init.state with pc := 0x0300, sp := 0x02 }
    strict := true
    mem := fun a => if a = 0x0300 then 4 else if a = 0x0301 then 5 else 0 }

/-- A CPU used to exercise the dispatcher: pc = 0x0200, memory holds
opcode 2 with operand byte 0xAB there, and opcode 3 with operand word
0x1234 at 0x0202. -/
def cpuW4 : cpu_t :=
  { cpu_init with
    state := { cpu_init.state with pc := 0x0200 }
    mem := fun a =>
      if a = 0x0200 then 2 else if a = 0x0201 then 0xAB
      else if a = 0x0202 then 3 else if a = 0x0203 then 0x34
      else if a = 0x0204 then 0x12 else 0 }

/-! Theorems. -/

/-- C1, counterexample: with every flag false, the packed status byte is
0x30, whose bit 4 is 1 even though B is false, and unpacking it turns B
on; so unpack after pack does not reproduce all seven flags and bit 4
does not equal the B flag. -/
theorem status_bit4_counterexample :
  cpu_init.state.b = false ∧
  (_cpu_get_status cpu_init).testBit 4 = true ∧
  (_cpu_set_status cpu_init (_cpu_get_status cpu_init)).state.b = true := by
  decide

/-- C1, amended: unpacking the packed status byte reproduces N, V, D, I,
Z and C exactly and always sets B to true, because bits 5 and 4 of the
packed byte are both always 1 regardless of the input flags (the 0x30
constant in _cpu_get_status covers bit 4 as well as bit 5). -/
theorem status_round_trip (cpu : cpu_t) :
  (_cpu_set_status cpu (_cpu_get_status cpu)).state.n = cpu.state.n ∧
  (_cpu_set_status cpu (_cpu_get_status cpu)).state.v = cpu.state.v ∧
  (_cpu_set_status cpu (_cpu_get_status cpu)).state.d = cpu.state.d ∧
  (_cpu_set_status cpu (_cpu_get_status cpu)).state.i = cpu.state.i ∧
  (_cpu_set_status cpu (_cpu_get_status cpu)).state.z = cpu.state.z ∧
  (_cpu_set_status cpu (_cpu_get_status cpu)).state.c = cpu.state.c ∧
  (_cpu_set_status cpu (_cpu_get_status cpu)).state.b = true ∧
  (_cpu_get_status cpu).testBit 5 = true ∧
  (_cpu_get_status cpu).testBit 4 = true := by
  obtain ⟨⟨a, x, y, sp, pc, n, v, b, d, i, z, c⟩, mem, strict, trace⟩ := cpu
  simp only [_cpu_set_status, _cpu_get_status]
  dsimp only
  cases n <;> cases v <;> cases b <;> cases d <;> cases i <;> cases z <;> cases c <;> decide

/-- C2: cpu_strict stores true into the strict field no matter which
boolean it is given; in particular calling it with false does not
disable strict mode, contradicting its role as a runtime toggle. -/
theorem cpu_strict_ignores_argument (cpu : cpu_t) (b : Bool) :
  (cpu_strict cpu b).strict = true := rfl

/-- C7: after cpu_reset, pc holds the little-endian word read at the
reset vector, sp is 0xff, the interrupt-disable flag is set, every other
flag is clear, and a, x and y are zero. -/
theorem cpu_reset_spec (cpu : cpu_t) :
  (cpu_reset cpu).state.pc = mem_get_word cpu EWM_VECTOR_RES ∧
  (cpu_reset cpu).state.pc = cpu.mem 0xFFFC % 256 + 256 * (cpu.mem 0xFFFD % 256) ∧
  (cpu_reset cpu).state.sp = 0xff ∧
  (cpu_reset cpu).state.i = true ∧
  (cpu_reset cpu).state.n = false ∧
  (cpu_reset cpu).state.v = false ∧
  (cpu_reset cpu).state.b = false ∧
  (cpu_reset cpu).state.d = false ∧
  (cpu_reset cpu).state.z = false ∧
  (cpu_reset cpu).state.c = false ∧
  (cpu_reset cpu).state.a = 0 ∧
  (cpu_reset cpu).state.x = 0 ∧
  (cpu_reset cpu).state.y = 0 := by
  refine ⟨rfl, ?_, rfl, rfl, rfl, rfl, rfl, rfl, rfl, rfl, rfl, rfl, rfl⟩
  show mem_get_word cpu EWM_VECTOR_RES = _
  norm_num [mem_get_word, mem_get_byte, EWM_VECTOR_RES]

/-- C9: when the fetched opcode has no registered handler,
cpu_execute_instruction returns EWM_CPU_ERR_UNIMPLEMENTED_INSTRUCTION
and the entire state (pc, sp, registers, flags and memory) is returned
unchanged. -/
theorem cpu_execute_unimplemented (tbl : Nat → cpu_instruction_t) (cpu : cpu_t)
    (hh : (tbl (mem_get_byte cpu cpu.state.pc)).handler = none) :
    cpu_execute_instruction tbl cpu = (EWM_CPU_ERR_UNIMPLEMENTED_INSTRUCTION, cpu) := by
  unfold cpu_execute_instruction
  rw [hh]

/-- C9, witness: under tblW, cpuA fetches opcode 1, which has no
handler, and execution fails with the unimplemented-instruction error
leaving the state untouched. -/
theorem cpu_execute_unimplemented_w :
  (tblW (mem_get_byte cpuA cpuA.state.pc)).handler = none ∧
  cpu_execute_instruction tblW cpuA = (EWM_CPU_ERR_UNIMPLEMENTED_INSTRUCTION, cpuA) :=
  ⟨rfl, cpu_execute_unimplemented tblW cpuA rfl⟩

/-- C8: for any 8-bit sp and byte v, pushing decrements sp with wraparound
(so pushing at sp = 0 leaves sp = 0xff), pulling right after a push
returns v and restores sp, and the same round trip holds for any 16-bit
word via the word operations. -/
theorem stack_round_trip (cpu : cpu_t) (v w : Nat)
    (hsp : cpu.state.sp < 256) (hv : v < 256) (hw : w < 65536) :
    (_cpu_push_byte cpu v).state.sp = (cpu.state.sp + 255) % 256 ∧
    (_cpu_pull_byte (_cpu_push_byte cpu v)).1 = v ∧
    (_cpu_pull_byte (_cpu_push_byte cpu v)).2.state.sp = cpu.state.sp ∧
    (_cpu_pull_word (_cpu_push_word cpu w)).1 = w ∧
    (_cpu_pull_word (_cpu_push_word cpu w)).2.state.sp = cpu.state.sp := by
  simp only [_cpu_pull_word, _cpu_push_word, _cpu_pull_byte, _cpu_push_byte,
    _mem_get_byte_direct, _mem_set_byte_direct, mem_get_byte, mem_set_byte]
  have h1 : ((cpu.state.sp + 255) % 256 + 1) % 256 = cpu.state.sp := by omega
  have h2 : (((cpu.state.sp + 255) % 256 + 255) % 256 + 1) % 256 =
      (cpu.state.sp + 255) % 256 := by omega
  rw [h2, h1]
  have h3 : ¬((0x0100 + cpu.state.sp) % 65536 =
      (0x0100 + (cpu.state.sp + 255) % 256) % 65536) := by omega
  simp [h3]
  omega

/-- C8, witness: the round trip evaluated at sp = 0 (the wraparound
case), v = 0xAB and w = 0x1234. -/
theorem stack_round_trip_w :
  cpu_init.state.sp < 256 ∧ 0xAB < 256 ∧ 0x1234 < 65536 ∧
  ((_cpu_push_byte cpu_init 0xAB).state.sp = 0xff ∧
   (_cpu_pull_byte (_cpu_push_byte cpu_init 0xAB)).1 = 0xAB ∧
   (_cpu_pull_byte (_cpu_push_byte cpu_init 0xAB)).2.state.sp = 0 ∧
   (_cpu_pull_word (_cpu_push_word cpu_init 0x1234)).1 = 0x1234 ∧
   (_cpu_pull_word (_cpu_push_word cpu_init 0x1234)).2.state.sp = 0) :=
  ⟨by decide, by decide, by decide,
   stack_round_trip cpu_init 0xAB 0x1234 (by decide) (by decide) (by decide)⟩

/-- C5: in strict mode, when the fetched instruction has a handler and
declares positive stack headroom exceeding the free space (the sp
value), execution fails with EWM_CPU_ERR_STACK_OVERFLOW; when it
declares negative headroom whose magnitude exceeds the used space
(0xff - sp), it fails with EWM_CPU_ERR_STACK_UNDERFLOW; in both cases
the whole state (pc, sp, registers, flags, memory) is returned
unchanged. -/
theorem cpu_execute_strict_guard (tbl : Nat → cpu_instruction_t) (cpu : cpu_t)
    (i : cpu_instruction_t) (h : cpu_instruction_handler_t)
    (hi : i = tbl (mem_get_byte cpu cpu.state.pc))
    (hh : i.handler = some h)
    (hstrict : cpu.strict = true) :
    (0 < i.stack → (_cpu_stack_free cpu : Int) < i.stack →
      cpu_execute_instruction tbl cpu = (EWM_CPU_ERR_STACK_OVERFLOW, cpu)) ∧
    (i.stack < 0 → (_cpu_stack_used cpu : Int) < -i.stack →
      cpu_execute_instruction tbl cpu = (EWM_CPU_ERR_STACK_UNDERFLOW, cpu)) := by
  subst hi
  unfold cpu_execute_instruction
  rw [hh]
  constructor
  · intro hpos hlt
    have hc : _cpu_stack_check (tbl (mem_get_byte cpu cpu.state.pc)) cpu =
        EWM_CPU_ERR_STACK_OVERFLOW := by
      unfold _cpu_stack_check
      rw [if_pos ⟨hstrict, by omega⟩, if_pos hpos, if_pos hlt]
    rw [hc]
    norm_num [EWM_CPU_ERR_STACK_OVERFLOW]
  · intro hneg hlt
    have hc : _cpu_stack_check (tbl (mem_get_byte cpu cpu.state.pc)) cpu =
        EWM_CPU_ERR_STACK_UNDERFLOW := by
      unfold _cpu_stack_check
      rw [if_pos ⟨hstrict, by omega⟩, if_neg (by omega), if_pos hlt]
    rw [hc]
    norm_num [EWM_CPU_ERR_STACK_UNDERFLOW]

/-- C5, witness: in strict mode with sp = 0x02, executing the
instruction at pc = 0x0300 (tblW opcode 4, which declares 3 bytes of
push headroom) fails with the stack-overflow error and leaves the state
unchanged. -/
theorem cpu_execute_strict_guard_w :
  cpuW5.strict = true ∧ cpuW5.state.sp = 0x02 ∧
  (tblW (mem_get_byte cpuW5 cpuW5.state.pc)).stack = 3 ∧
  cpu_execute_instruction tblW cpuW5 = (EWM_CPU_ERR_STACK_OVERFLOW, cpuW5) :=
  ⟨rfl, rfl, rfl,
   (cpu_execute_strict_guard tblW cpuW5 (tblW (mem_get_byte cpuW5 cpuW5.state.pc))
      (.handler0 fun cpu => cpu) rfl rfl rfl).1 (by decide) (by decide)⟩

/-- C4: when the fetched instruction has a handler and the strict-mode
stack guard passes, the dispatcher first advances pc by the length
declared in the descriptor and then calls the handler on that advanced
state, so a handler that assigns pc is not overwritten afterwards; the
handler receives no operand for length 1, the byte fetched at the
original pre-advance pc + 1 for length 2, and the little-endian word
fetched at the original pre-advance pc + 1 and pc + 2 for length 3. -/
theorem cpu_execute_dispatch (tbl : Nat → cpu_instruction_t) (cpu : cpu_t)
    (i : cpu_instruction_t)
    (hi : i = tbl (mem_get_byte cpu cpu.state.pc))
    (hchk : _cpu_stack_check i cpu = 0) :
    (∀ f, i.handler = some (.handler0 f) → i.bytes = 1 →
      cpu_execute_instruction tbl cpu =
        (0, f { cpu with state := { cpu.state with
                  pc := (cpu.state.pc + i.bytes) % 65536 } })) ∧
    (∀ f, i.handler = some (.handler_byte f) → i.bytes = 2 →
      cpu_execute_instruction tbl cpu =
        (0, f { cpu with state := { cpu.state with
                  pc := (cpu.state.pc + i.bytes) % 65536 } }
             (mem_get_byte cpu (cpu.state.pc + 1)))) ∧
    (∀ f, i.handler = some (.handler_word f) → i.bytes = 3 →
      cpu_execute_instruction tbl cpu =
        (0, f { cpu with state := { cpu.state with
                  pc := (cpu.state.pc + i.bytes) % 65536 } }
             (mem_get_byte cpu (cpu.state.pc + 1) +
              256 * mem_get_byte cpu (cpu.state.pc + 2)))) := by
  subst hi
  refine ⟨?_, ?_, ?_⟩ <;> intro f hh hb <;>
    · unfold cpu_execute_instruction
      rw [hh]
      dsimp only
      rw [if_neg (by simp [hchk])]
      unfold _cpu_dispatch
      rw [hb]
      try dsimp only
      try rfl

/-- Helper: the packed status byte always fits in 8 bits. -/
theorem status_lt_256 (cpu : cpu_t) : _cpu_get_status cpu < 256 := by
  obtain ⟨⟨a, x, y, sp, pc, n, v, b, d, i, z, c⟩, mem, strict, trace⟩ := cpu
  simp only [_cpu_get_status]
  dsimp only
  cases n <;> cases v <;> cases b <;> cases d <;> cases i <;> cases z <;> cases c <;> decide

set_option maxRecDepth 4000 in
/-- C6: when the strict-mode guard does not fire (non-strict, or at
least 3 bytes of free stack), cpu_irq returns 0 and the new state has
the interrupt-disable flag set, pc loaded from the IRQ vector, sp
lowered by 3 with wraparound, and the three bytes just above the new
top of stack holding, in increasing address order, the packed status
byte, the low byte of the old pc and the high byte of the old pc; in
strict mode with fewer than 3 free bytes it fails with
EWM_CPU_ERR_STACK_OVERFLOW and returns the state unchanged. -/
theorem cpu_irq_spec (cpu : cpu_t) (hsp : cpu.state.sp < 256) :
    (cpu.strict = true ∧ cpu.state.sp < 3 →
      cpu_irq cpu = (EWM_CPU_ERR_STACK_OVERFLOW, cpu)) ∧
    (¬(cpu.strict = true ∧ cpu.state.sp < 3) →
      (cpu_irq cpu).1 = 0 ∧
      (cpu_irq cpu).2.state.i = true ∧
      (cpu_irq cpu).2.state.pc = mem_get_word cpu EWM_VECTOR_IRQ ∧
      (cpu_irq cpu).2.state.sp = (cpu.state.sp + 253) % 256 ∧
      (cpu_irq cpu).2.mem (0x0100 + (cpu.state.sp + 254) % 256) = _cpu_get_status cpu ∧
      (cpu_irq cpu).2.mem (0x0100 + (cpu.state.sp + 255) % 256) = cpu.state.pc % 256 ∧
      (cpu_irq cpu).2.mem (0x0100 + cpu.state.sp) = cpu.state.pc / 256 % 256) := by
  constructor
  · intro h
    unfold cpu_irq _cpu_stack_free
    rw [if_pos h]
  · intro h
    have hstatus := status_lt_256 cpu
    unfold cpu_irq _cpu_stack_free
    rw [if_neg h]
    simp only [_cpu_push_word, _cpu_push_byte, _mem_set_byte_direct, mem_set_byte,
      mem_get_word, mem_get_byte, EWM_VECTOR_IRQ]
    refine ⟨trivial, trivial, ?_, by omega, ?_, ?_, ?_⟩
    · rw [if_neg (by omega), if_neg (by omega), if_neg (by omega),
        if_neg (by omega), if_neg (by omega), if_neg (by omega)]
    · rw [if_pos (by omega)]
      show _cpu_get_status cpu % 256 = _cpu_get_status cpu
      exact Nat.mod_eq_of_lt hstatus
    · rw [if_neg (by omega), if_pos (by omega)]
      omega
    · rw [if_neg (by omega), if_neg (by omega), if_pos (by omega)]
      omega

/-- C6, witness: with pc = 0x0400, carry set, zero clear, sp = 0xff and
strict mode off, cpu_irq succeeds; the stack page then holds the packed
status byte 0x31 at 0x01FD, the low pc byte 0x00 at 0x01FE and the high
pc byte 0x04 at 0x01FF; sp is 0xfc, the interrupt-disable flag is set
and pc equals the word 0x1234 stored at the IRQ vector. -/
theorem cpu_irq_spec_w :
  cpuW6.state.sp < 256 ∧
  ((cpu_irq cpuW6).1 = 0 ∧
   (cpu_irq cpuW6).2.state.i = true ∧
   (cpu_irq cpuW6).2.state.pc = mem_get_word cpuW6 EWM_VECTOR_IRQ ∧
   (cpu_irq cpuW6).2.state.sp = 0xfc ∧
   (cpu_irq cpuW6).2.mem 0x01FD = _cpu_get_status cpuW6 ∧
   (cpu_irq cpuW6).2.mem 0x01FE = 0x00 ∧
   (cpu_irq cpuW6).2.mem 0x01FF = 0x04) :=
  ⟨by decide, (cpu_irq_spec cpuW6 (by decide)).2 (by decide)⟩

/-- C4, witness: under tblW at pc = 0x0200, opcode 2 (length 2)
dispatches with the operand byte 0xAB fetched from pc + 1 and pc already
advanced to 0x0202 when the handler runs, so the handler that stores its
operand into a yields a = 0xAB and pc = 0x0202. -/
theorem cpu_execute_dispatch_w :
  _cpu_stack_check (tblW (mem_get_byte cpuW4 cpuW4.state.pc)) cpuW4 = 0 ∧
  cpu_execute_instruction tblW cpuW4 =
    (0, { cpuW4 with state := { cpuW4.state with pc := 0x0202, a := 0xAB } }) :=
  ⟨by decide,
   (cpu_execute_dispatch tblW cpuW4 (tblW (mem_get_byte cpuW4 cpuW4.state.pc))
      rfl (by decide)).2.1
     (fun cpu oper => { cpu with state := { cpu.state with a := oper } }) rfl rfl⟩

/-- C10: whenever cpu_irq or cpu_nmi returns 0, the registers a, x and
y and the flags n, v, b, d, z and c are unchanged, sp decreases by
exactly 3 modulo 256, and every memory byte other than the three
stack-page bytes written by the pushes is unchanged. -/
theorem cpu_interrupt_frame (cpu : cpu_t) (hsp : cpu.state.sp < 256) :
    ((cpu_irq cpu).1 = 0 →
      (cpu_irq cpu).2.state.a = cpu.state.a ∧
      (cpu_irq cpu).2.state.x = cpu.state.x ∧
      (cpu_irq cpu).2.state.y = cpu.state.y ∧
      (cpu_irq cpu).2.state.n = cpu.state.n ∧
      (cpu_irq cpu).2.state.v = cpu.state.v ∧
      (cpu_irq cpu).2.state.b = cpu.state.b ∧
      (cpu_irq cpu).2.state.d = cpu.state.d ∧
      (cpu_irq cpu).2.state.z = cpu.state.z ∧
      (cpu_irq cpu).2.state.c = cpu.state.c ∧
      (cpu_irq cpu).2.state.sp = (cpu.state.sp + 253) % 256 ∧
      (∀ addr, addr ≠ 0x0100 + cpu.state.sp →
        addr ≠ 0x0100 + (cpu.state.sp + 255) % 256 →
        addr ≠ 0x0100 + (cpu.state.sp + 254) % 256 →
        (cpu_irq cpu).2.mem addr = cpu.mem addr)) ∧
    ((cpu_nmi cpu).1 = 0 →
      (cpu_nmi cpu).2.state.a = cpu.state.a ∧
      (cpu_nmi cpu).2.state.x = cpu.state.x ∧
      (cpu_nmi cpu).2.state.y = cpu.state.y ∧
      (cpu_nmi cpu).2.state.n = cpu.state.n ∧
      (cpu_nmi cpu).2.state.v = cpu.state.v ∧
      (cpu_nmi cpu).2.state.b = cpu.state.b ∧
      (cpu_nmi cpu).2.state.d = cpu.state.d ∧
      (cpu_nmi cpu).2.state.z = cpu.state.z ∧
      (cpu_nmi cpu).2.state.c = cpu.state.c ∧
      (cpu_nmi cpu).2.state.sp = (cpu.state.sp + 253) % 256 ∧
      (∀ addr, addr ≠ 0x0100 + cpu.state.sp →
        addr ≠ 0x0100 + (cpu.state.sp + 255) % 256 →
        addr ≠ 0x0100 + (cpu.state.sp + 254) % 256 →
        (cpu_nmi cpu).2.mem addr = cpu.mem addr)) := by
  constructor
  · intro hsucc
    by_cases hg : cpu.strict = true ∧ cpu.state.sp < 3
    · have hfail : (cpu_irq cpu).1 = EWM_CPU_ERR_STACK_OVERFLOW := by
        unfold cpu_irq _cpu_stack_free
        rw [if_pos hg]
      rw [hfail] at hsucc
      simp [EWM_CPU_ERR_STACK_OVERFLOW] at hsucc
    · unfold cpu_irq _cpu_stack_free
      rw [if_neg hg]
      simp only [_cpu_push_word, _cpu_push_byte, _mem_set_byte_direct, mem_set_byte]
      refine ⟨trivial, trivial, trivial, trivial, trivial, trivial, trivial, trivial,
        trivial, by omega, ?_⟩
      intro addr h1 h2 h3
      rw [if_neg (by omega), if_neg (by omega), if_neg (by omega)]
  · intro hsucc
    by_cases hg : cpu.strict = true ∧ cpu.state.sp < 3
    · have hfail : (cpu_nmi cpu).1 = EWM_CPU_ERR_STACK_OVERFLOW := by
        unfold cpu_nmi _cpu_stack_free
        rw [if_pos hg]
      rw [hfail] at hsucc
      simp [EWM_CPU_ERR_STACK_OVERFLOW] at hsucc
    · unfold cpu_nmi _cpu_stack_free
      rw [if_neg hg]
      simp only [_cpu_push_word, _cpu_push_byte, _mem_set_byte_direct, mem_set_byte]
      refine ⟨trivial, trivial, trivial, trivial, trivial, trivial, trivial, trivial,
        trivial, by omega, ?_⟩
      intro addr h1 h2 h3
      rw [if_neg (by omega), if_neg (by omega), if_neg (by omega)]

/-- C10, witness: on the cpuW6 state both interrupts succeed; a and the
carry flag are unchanged, sp drops from 0xff to 0xfc, and a byte far
from the stack page (0x2000) is untouched. -/
theorem cpu_interrupt_frame_w :
  cpuW6.state.sp < 256 ∧
  (cpu_irq cpuW6).1 = 0 ∧ (cpu_nmi cpuW6).1 = 0 ∧
  (cpu_irq cpuW6).2.state.a = cpuW6.state.a ∧
  (cpu_irq cpuW6).2.state.c = cpuW6.state.c ∧
  (cpu_irq cpuW6).2.state.sp = 0xfc ∧
  (cpu_irq cpuW6).2.mem 0x2000 = cpuW6.mem 0x2000 ∧
  (cpu_nmi cpuW6).2.mem 0x2000 = cpuW6.mem 0x2000 := by
  have h := cpu_interrupt_frame cpuW6 (by decide)
  have hi := h.1 (by decide)
  have hn := h.2 (by decide)
  exact ⟨by decide, by decide, by decide, hi.1, hi.2.2.2.2.2.2.2.2.1,
    hi.2.2.2.2.2.2.2.2.2.1,
    hi.2.2.2.2.2.2.2.2.2.2 0x2000 (by decide) (by decide) (by decide),
    hn.2.2.2.2.2.2.2.2.2.2 0x2000 (by decide) (by decide) (by decide)⟩

/-- Helper: what a successful cpu_run_loop result means, generalized
over the starting counter value: the loop ran n - c successful steps
from the starting state, stopped at the first step returning a nonzero
error, and yielded that error and the resulting state of that step. -/
theorem cpu_run_loop_sound (tbl : Nat → cpu_instruction_t) :
    ∀ fuel c cpu err n cpuF,
      cpu_run_loop tbl fuel c cpu = some (err, n, cpuF) →
      c ≤ n ∧ err ≠ 0 ∧
      (∀ k, k < n - c → (cpu_step tbl (iter_cpu_step tbl k cpu)).1 = 0) ∧
      (cpu_step tbl (iter_cpu_step tbl (n - c) cpu)).1 = err ∧
      cpuF = (cpu_step tbl (iter_cpu_step tbl (n - c) cpu)).2 := by
  intro fuel
  induction fuel with
  | zero =>
    intro c cpu err n cpuF h
    simp [cpu_run_loop] at h
  | succ fuel ih =>
    intro c cpu err n cpuF h
    rw [cpu_run_loop] at h
    by_cases h0 : (cpu_execute_instruction tbl cpu).1 = 0
    · rw [if_pos h0] at h
      obtain ⟨hcn, herr, hzero, hstop, hcpu⟩ :=
        ih (c + 1) (cpu_execute_instruction tbl cpu).2 err n cpuF h
      have hseq : ∀ k, iter_cpu_step tbl k (cpu_execute_instruction tbl cpu).2 =
          iter_cpu_step tbl (k + 1) cpu := fun k => rfl
      have hsub : n - (c + 1) + 1 = n - c := by omega
      refine ⟨by omega, herr, ?_, ?_, ?_⟩
      · intro k hk
        cases k with
        | zero => exact h0
        | succ k =>
          have hz := hzero k (by omega)
          rw [hseq k] at hz
          exact hz
      · have hs := hstop
        rw [hseq (n - (c + 1)), hsub] at hs
        exact hs
      · have hc := hcpu
        rw [hseq (n - (c + 1)), hsub] at hc
        exact hc
    · rw [if_neg h0] at h
      have h1 : (cpu_execute_instruction tbl cpu).1 = err ∧ c = n ∧
          (cpu_execute_instruction tbl cpu).2 = cpuF := by
        simpa using h
      obtain ⟨he, hn, hc⟩ := h1
      subst he
      subst hn
      subst hc
      exact ⟨le_refl c, h0, fun k hk => absurd hk (by omega),
        by simp [iter_cpu_step, cpu_step], by simp [iter_cpu_step, cpu_step]⟩

/-- C3 (amended): cpu_run repeatedly executes instructions until one
returns a nonzero error, counting the instructions executed along the
way in a local counter; when the loop stops having counted n, the first
n steps succeeded and the next step produced the error; the value the
function returns to its caller is that error alone (the count is only
printed to the diagnostic stream, not returned). -/
theorem cpu_run_first_error (tbl : Nat → cpu_instruction_t) (fuel : Nat)
    (cpu cpuF : cpu_t) (err : Int) (n : Nat)
    (h : cpu_run_loop tbl fuel 0 cpu = some (err, n, cpuF)) :
    err ≠ 0 ∧
    cpu_run tbl fuel cpu = some (err, cpuF) ∧
    (∀ k, k < n → (cpu_step tbl (iter_cpu_step tbl k cpu)).1 = 0) ∧
    (cpu_step tbl (iter_cpu_step tbl n cpu)).1 = err := by
  obtain ⟨-, herr, hzero, hstop, -⟩ := cpu_run_loop_sound tbl fuel 0 cpu err n cpuF h
  refine ⟨herr, ?_, by simpa using hzero, by simpa using hstop⟩
  simp [cpu_run, h]

/-- C3, witness: under tblW from cpuA the very first instruction fails,
so the loop stops with count 0 and the unimplemented-instruction error,
and cpu_run hands that error (with the final state) to the caller. -/
theorem cpu_run_first_error_w :
  cpu_run_loop tblW 10 0 cpuA = some (EWM_CPU_ERR_UNIMPLEMENTED_INSTRUCTION, 0, cpuA) ∧
  (EWM_CPU_ERR_UNIMPLEMENTED_INSTRUCTION ≠ (0 : Int) ∧
   cpu_run tblW 10 cpuA = some (EWM_CPU_ERR_UNIMPLEMENTED_INSTRUCTION, cpuA) ∧
   (cpu_step tblW (iter_cpu_step tblW 0 cpuA)).1 = EWM_CPU_ERR_UNIMPLEMENTED_INSTRUCTION) := by
  have h : cpu_run_loop tblW 10 0 cpuA =
      some (EWM_CPU_ERR_UNIMPLEMENTED_INSTRUCTION, 0, cpuA) := rfl
  have r := cpu_run_first_error tblW 10 cpuA cpuA EWM_CPU_ERR_UNIMPLEMENTED_INSTRUCTION 0 h
  exact ⟨h, r.1, r.2.1, r.2.2.2⟩

/-- C3, counterexample: the run from cpuA executes 0 instructions and
the run from cpuB executes 2, yet both stop with the same error and
cpu_run hands the caller exactly the same value (the bare error int) in
both cases; the executed-instruction count is therefore not part of
what run returns to the caller, refuting the claimed (error,
instructions_executed) return pair. -/
theorem cpu_run_count_not_returned :
  (cpu_run_loop tblW 10 0 cpuA).map (fun r => (r.1, r.2.1)) =
    some (EWM_CPU_ERR_UNIMPLEMENTED_INSTRUCTION, 0) ∧
  (cpu_run_loop tblW 10 0 cpuB).map (fun r => (r.1, r.2.1)) =
    some (EWM_CPU_ERR_UNIMPLEMENTED_INSTRUCTION, 2) ∧
  (cpu_run tblW 10 cpuA).map Prod.fst = some EWM_CPU_ERR_UNIMPLEMENTED_INSTRUCTION ∧
  (cpu_run tblW 10 cpuB).map Prod.fst = some EWM_CPU_ERR_UNIMPLEMENTED_INSTRUCTION :=
  ⟨rfl, rfl, rfl, rfl⟩

end Ewm
